import Mathlib

/-!
Shallow embedding of the kepler.gl table core (`KeplerTable` and its helper
functions) for verification of the specification claims.

Cell values are modelled as `Option Int`: `none` stands for a JS
`null`/`undefined` cell, `some n` for a numeric cell.  The data container is
modelled row-major as a list of rows (the source's `DataContainerInterface`
is an abstract positional-access interface over exactly that shape).
-/

namespace Kepler

/-- One column descriptor.  The source `Field` carries many more UI-oriented
attributes; the operations verified here use only the unique `name` and the
positional `fieldIdx` (bound into the field's value accessor at import). -/
structure Field where
  name : String
  fieldIdx : Nat := 0
deriving DecidableEq

/-- Modelled from the spec: a `Filter` is an external entity describing one
active predicate: id, target dataset id, field name, a `gpu` flag, a
fixed-domain flag and a value (here: an inclusive numeric range). -/
structure Filter where
  id : String
  dataId : String
  name : String
  gpu : Bool := false
  fixedDomain : Bool := false
  lower : Int := 0
  upper : Int := 0
deriving DecidableEq

/-- Layers are opaque to the table core: they are only threaded through to
the filter-function compiler.  The spec-modelled compiler below does not
depend on layer-specific semantics, so an identifier suffices. -/
structure Layer where
  id : String := ""
deriving DecidableEq

/-- `FilterDatasetOpt` from the source: options of `getFilterRecord`. -/
structure FilterDatasetOpt where
  cpuOnly : Bool := false
  ignoreDomain : Bool := false
deriving DecidableEq

/-- Modelled from the spec: classification of the active filters into
`dynamicDomain` / `cpu` / `gpu` buckets (`getFilterRecord`, missing from the
sources; only its callers are present). -/
structure FilterRecord where
  dynamicDomain : List Filter
  cpu : List Filter
  gpu : List Filter
deriving DecidableEq

/-- Modelled from the spec: `diffFilters` output, flagging which buckets of
the classification actually changed since the last call.  Each flag models
the truthiness of the corresponding bucket of the source's diff object. -/
structure FilterChanged where
  dynamicDomain : Bool
  cpu : Bool
  gpu : Bool
deriving DecidableEq

/-- `FilterResult` of the single-pass scan: each index list is present
exactly when the corresponding bucket was scanned. -/
structure FilterResult where
  filteredIndex : Option (List Nat) := none
  filteredIndexForDomain : Option (List Nat) := none
deriving DecidableEq

/-- An inferred lat/lng(/altitude) column grouping (`FieldPair`). -/
structure FieldPair where
  defaultName : String
  latFieldIdx : Nat
  latValue : String
  lngFieldIdx : Nat
  lngValue : String
  altitude : Option (Nat × String) := none
  suffix : String × String
deriving DecidableEq

/-- Row-major data container: a list of rows of nullable numeric cells. -/
abbrev DataContainer := List (List (Option Int))

/-- Positional cell access (`dataContainer.valueAt(rowIndex, fieldIndex)`);
an out-of-bounds access yields `none`, like `undefined` in the source. -/
def valueAt (dc : DataContainer) (rowIndex fieldIndex : Nat) : Option Int :=
  match dc[rowIndex]? with
  | none => none
  | some row => (row[fieldIndex]?).join

/-- The mutable table state of the source `KeplerTable` class. -/
structure KeplerTable where
  id : String
  fields : List Field := []
  dataContainer : DataContainer := []
  allIndexes : List Nat := []
  filteredIndex : List Nat := []
  filteredIdxCPU : Option (List Nat) := none
  filteredIndexForDomain : List Nat := []
  fieldPairs : List FieldPair := []
  gpuFilter : List Filter := []
  filterRecord : Option FilterRecord := none
  filterRecordCPU : Option FilterRecord := none
  changedFilters : Option FilterChanged := none
  sortColumn : Option (List (String × String)) := none
  sortOrder : Option (List Nat) := none
  pinnedColumns : Option (List String) := none
deriving DecidableEq

/-- Modelled from the spec: `getFilterRecord(dataId, filters, opt)` is a pure
function classifying filters by dataset relevance and evaluation tier:
`dynamicDomain` holds the relevant non-fixed-domain filters (none when
`ignoreDomain`), `cpu` the host-evaluated filters (all relevant ones when
`cpuOnly`), `gpu` the offloaded ones (none when `cpuOnly`). -/
def getFilterRecord (dataId : String) (filters : List Filter)
    (opt : FilterDatasetOpt) : FilterRecord :=
  let relevant := filters.filter (fun f => f.dataId == dataId)
  { dynamicDomain :=
      if opt.ignoreDomain then [] else relevant.filter (fun f => !f.fixedDomain)
    cpu := if opt.cpuOnly then relevant else relevant.filter (fun f => !f.gpu)
    gpu := if opt.cpuOnly then [] else relevant.filter (fun f => f.gpu) }

/-- Modelled from the spec: `diffFilters` computes the semantic diff between
the new classification and the previous one; a bucket is flagged truthy
exactly when its filter list changed (with no previous record, exactly when
the new bucket is non-empty, i.e. every filter in it was added). -/
def diffFilters (newRecord : FilterRecord) (oldRecord : Option FilterRecord) :
    FilterChanged :=
  match oldRecord with
  | none =>
    { dynamicDomain := !newRecord.dynamicDomain.isEmpty
      cpu := !newRecord.cpu.isEmpty
      gpu := !newRecord.gpu.isEmpty }
  | some o =>
    { dynamicDomain := !(newRecord.dynamicDomain == o.dynamicDomain)
      cpu := !(newRecord.cpu == o.cpu)
      gpu := !(newRecord.gpu == o.gpu) }

/-- Modelled from the spec: the compiled GPU filter descriptor is recomputed
unconditionally from the full filter list; it is declarative (no row scan).
Only its dependence on the inputs matters to the claims, so it is modelled
as the list of gpu-offloaded filters relevant to this dataset. -/
def getGpuFilterProps (filters : List Filter) (dataId : String)
    (_fields : List Field) : List Filter :=
  filters.filter (fun f => f.dataId == dataId && f.gpu)

/-- Modelled from the spec: the filter-function compiler (§4.3) produces a
pure per-row predicate; a filter whose target field is absent from this
dataset degrades to constant pass; a `null` cell is treated as non-matching
for range filters. -/
def getFilterFunction (fields : List Field) (dc : DataContainer)
    (filter : Filter) (i : Nat) : Bool :=
  match fields.findIdx? (fun fd => fd.name == filter.name) with
  | none => true
  | some idx =>
    match valueAt dc i idx with
    | none => false
    | some v => decide (filter.lower ≤ v) && decide (v ≤ filter.upper)

/-- Modelled from the spec: `filterDataByFilterTypes` performs a single pass
over the rows, producing an index list per requested bucket: rows passing
all `cpu` predicates and rows passing all `dynamicDomain` predicates. -/
def filterDataByFilterTypes (dynamicDomainFilters cpuFilters : Option (List Filter))
    (fields : List Field) (dc : DataContainer) : FilterResult :=
  let pass : List Filter → Nat → Bool := fun fs i =>
    fs.all (fun f => getFilterFunction fields dc f i)
  { filteredIndex :=
      cpuFilters.map (fun fs => (List.range dc.length).filter (pass fs))
    filteredIndexForDomain :=
      dynamicDomainFilters.map (fun fs => (List.range dc.length).filter (pass fs)) }

/-- `KeplerTable.prototype.filterTable(filters, layers, opt)`.  The source
mutates `this` and returns it; the embedding returns the updated table
together with a flag recording whether the row scan was performed (the
"scan-invocation counter" the spec declares observable in tests). -/
def KeplerTable.filterTable (t : KeplerTable) (filters : List Filter)
    (_layers : List Layer) (opt : FilterDatasetOpt) : KeplerTable × Bool :=
  let filterRecord := getFilterRecord t.id filters opt
  let changed := diffFilters filterRecord t.filterRecord
  let base : KeplerTable :=
    { t with
      filterRecord := some filterRecord
      gpuFilter := getGpuFilterProps filters t.id t.fields
      changedFilters := some changed }
  if filters.isEmpty then
    ({ base with
       filteredIndex := t.allIndexes
       filteredIndexForDomain := t.allIndexes }, false)
  else
    if changed.dynamicDomain || changed.cpu then
      let dynamicDomainFilters :=
        if changed.dynamicDomain then some filterRecord.dynamicDomain else none
      let cpuFilters := if changed.cpu then some filterRecord.cpu else none
      let filterResult :=
        filterDataByFilterTypes dynamicDomainFilters cpuFilters t.fields t.dataContainer
      ({ base with
         filteredIndex := filterResult.filteredIndex.getD t.filteredIndex
         filteredIndexForDomain :=
           filterResult.filteredIndexForDomain.getD t.filteredIndexForDomain }, true)
    else
      (base, false)

/-- `copyTable`: prototype-based shallow copy — a new table object holding
the same field values (in particular sharing the data container). -/
def copyTable (original : KeplerTable) : KeplerTable := original

/-- `copyTableAndUpdate`: copy the table, then apply the given field
updates onto the copy. -/
def copyTableAndUpdate (original : KeplerTable)
    (options : KeplerTable → KeplerTable) : KeplerTable :=
  options (copyTable original)

/-- `KeplerTable.prototype.filterTableCPU(filters, layers)`. -/
def KeplerTable.filterTableCPU (t : KeplerTable) (filters : List Filter)
    (layers : List Layer) : KeplerTable :=
  let opt : FilterDatasetOpt := { cpuOnly := true, ignoreDomain := true }
  if filters.isEmpty then
    { t with
      filteredIdxCPU := some t.allIndexes
      filterRecordCPU := some (getFilterRecord t.id filters opt) }
  else
    if !(filters.any (fun f => f.gpu)) then
      { t with
        filteredIdxCPU := some t.filteredIndex
        filterRecordCPU := some (getFilterRecord t.id filters opt) }
    else
      let copiedBase := copyTable t
      let copied : KeplerTable :=
        { copiedBase with
          filterRecord := t.filterRecordCPU
          filteredIndex := t.filteredIdxCPU.getD [] }
      let filtered := (copied.filterTable filters layers opt).1
      { t with
        filteredIdxCPU := some filtered.filteredIndex
        filterRecordCPU := filtered.filterRecord }

/-- `getColumnField(columnName)`: look up a field by its unique name. -/
def KeplerTable.getColumnField (t : KeplerTable) (columnName : String) :
    Option Field :=
  t.fields.find? (fun fd => fd.name == columnName)

/-- Well-formedness of a table's index views, as established by
`importData`/`update`: `allIndexes` is the plain index `[0..N)` of the data
container and both filtered index views are sublists of it. -/
def WellFormedTable (t : KeplerTable) : Prop :=
  t.allIndexes = List.range t.dataContainer.length ∧
  t.filteredIndex.Sublist t.allIndexes ∧
  t.filteredIndexForDomain.Sublist t.allIndexes

/-- Modelled from the spec: the configured point suffix conventions
(`TRIP_POINT_FIELDS` from the constants package), in priority order. -/
def TRIP_POINT_FIELDS : List (String × String) :=
  [("lat", "lng"), ("lat", "lon"), ("lat", "long"), ("latitude", "longitude")]

/-- Modelled from the spec: the altitude-suffix candidates
(`ALTITUDE_FIELDS` from the constants package), probed in order. -/
def ALTITUDE_FIELDS : List String := ["alt", "altitude"]

/-- The word-separator character class of the source's
`specialCharacterSet` regex fragment. -/
def specialCharacterSet : List Char := ['#', '_', '&', '@', '.', '-', ' ']

def isSep (c : Char) : Bool := specialCharacterSet.contains c

/-- Trailing boundary of the suffix regex, alternatives in regex order:
a separator character (length 1) or the end of the string (length 0). -/
def boundaryLen (r : List Char) : Option Nat :=
  match r with
  | [] => some 0
  | c :: _ => if isSep c then some 1 else none

/-- Length of a match of the regex
`(^|[#_&@\.\-\ ])SUFFIX([#_&@\.\-\ ]|$)` at position `p` of `s`, trying the
alternatives in the engine's order (anchor first at position 0, then a
separator character; separator before end-of-string for the right
boundary), or `none` when the regex cannot match at `p`. -/
def matchLenAt (s w : List Char) (p : Nat) : Option Nat :=
  let rest := s.drop p
  let viaSep : Option Nat :=
    match rest with
    | [] => none
    | c :: r2 =>
      if isSep c && w.isPrefixOf r2 then
        (boundaryLen (r2.drop w.length)).map (fun e => 1 + w.length + e)
      else none
  if p == 0 then
    if w.isPrefixOf rest then
      match boundaryLen (rest.drop w.length) with
      | some e => some (w.length + e)
      | none => viaSep
    else viaSep
  else viaSep

/-- Leftmost match (start position and length) of the bounded-suffix regex
in `s`, as found by `re.test`/`String.replace` with a non-global regex. -/
def findBounded (s w : List Char) : Option (Nat × Nat) :=
  (List.range (s.length + 1)).findSome?
    (fun p => (matchLenAt s w p).map (fun len => (p, len)))

/-- JS `String.replace` with a plain-string pattern: replace the first
occurrence of `pat` in the list by `repl`. -/
def replaceFirst : List Char → List Char → List Char → List Char
  | [], _, _ => []
  | c :: rest, pat, repl =>
    if pat.isPrefixOf (c :: rest) then repl ++ (c :: rest).drop pat.length
    else c :: replaceFirst rest pat repl

/-- JS `String.replace` with the bounded-suffix regex and a replacer
function: substitute `f` of the matched substring for the first match. -/
def replaceBoundedBy (s w : List Char) (f : List Char → List Char) : List Char :=
  match findBounded s w with
  | none => s
  | some pl => s.take pl.1 ++ f ((s.drop pl.1).take pl.2) ++ s.drop (pl.1 + pl.2)

/-- `foundMatchingFields(re, suffixPair, allNames, fieldName)`: index of the
partner field (the name with the first suffix swapped for the second inside
the regex match), and, when the partner exists, the index of the first
altitude companion candidate that exists.  JS `-1` sentinels are `none`. -/
def foundMatchingFields (suffixPair : String × String) (allNames : List String)
    (fieldName : String) : Option Nat × Option Nat :=
  let w := suffixPair.1.toList
  let partnerName :=
    String.mk (replaceBoundedBy fieldName.toList w
      (fun m => replaceFirst m w suffixPair.2.toList))
  let partnerIdx := allNames.findIdx? (fun d => d == partnerName)
  let altIdx : Option Nat :=
    match partnerIdx with
    | none => none
    | some _ =>
      ALTITUDE_FIELDS.findSome? (fun alt =>
        allNames.findIdx? (fun d =>
          d == String.mk (replaceBoundedBy fieldName.toList w
            (fun m => replaceFirst m w alt.toList))))
  (partnerIdx, altIdx)

/-- JS `toLowerCase`, applied characterwise (`String.toLower` of the
standard library, written out over the character list so that concrete
instances reduce inside the kernel). -/
def lowerName (s : String) : String := String.mk (s.toList.map Char.toLower)

/-- JS `String.trim` restricted to the space character (the only
whitespace the word-separator class lets adjoin a matched suffix). -/
def trimChars (s : List Char) : List Char :=
  ((s.dropWhile (fun c => c == ' ')).reverse.dropWhile (fun c => c == ' ')).reverse

def fieldNameAt (fields : List Field) (i : Nat) : String :=
  match fields[i]? with
  | some f => f.name
  | none => ""

/-- Body of the per-field loop of `findPointFieldPairs`: the first suffix
pair whose suffix occurs bounded in `fieldName` and whose partner exists
yields the field pair (the search exits early on success; a bounded suffix
whose partner is absent falls through to the next suffix pair). -/
def firstPairMatch (fields : List Field) (allNames : List String) (idx : Nat)
    (fieldName : String) : Option FieldPair :=
  TRIP_POINT_FIELDS.findSome? (fun suffixPair =>
    let w := suffixPair.1.toList
    match findBounded fieldName.toList w with
    | none => none
    | some _ =>
      match foundMatchingFields suffixPair allNames fieldName with
      | (some partnerIdx, altIdx) =>
        let trimName :=
          String.mk (trimChars (replaceBoundedBy fieldName.toList w (fun _ => [])))
        some { defaultName := if trimName == "" then ("point") else trimName
               latFieldIdx := idx
               latValue := fieldNameAt fields idx
               lngFieldIdx := partnerIdx
               lngValue := fieldNameAt fields partnerIdx
               altitude := altIdx.map (fun ai => (ai, fieldNameAt fields ai))
               suffix := suffixPair }
      | (none, _) => none)

/-- `findPointFieldPairs(fields)`: scan the lowercased field names in order,
accumulating one pair per field that matches (the source's `reduce`). -/
def findPointFieldPairs (fields : List Field) : List FieldPair :=
  let allNames := fields.map (fun f => lowerName f.name)
  allNames.enum.foldl
    (fun carry p =>
      match firstPairMatch fields allNames p.1 p.2 with
      | some pair => carry ++ [pair]
      | none => carry) []

/-- `importData({data})`: wrap the rows in a container, bind each field to
its position, and initialize all index views to the plain index. -/
def KeplerTable.importData (t : KeplerTable) (dataFields : List Field)
    (rows : DataContainer) : KeplerTable :=
  let fields := dataFields.enum.map (fun p => { p.2 with fieldIdx := p.1 })
  let allIndexes := List.range rows.length
  { t with
    dataContainer := rows
    fields := fields
    allIndexes := allIndexes
    filteredIndex := allIndexes
    filteredIndexForDomain := allIndexes
    fieldPairs := findPointFieldPairs fields
    gpuFilter := getGpuFilterProps [] t.id fields }

/-- `update(data)`: merge additional rows into the container (the container
`update` appends, preserving existing positional indices, per the spec) and
reset both index views to the new plain index. -/
def KeplerTable.update (t : KeplerTable) (newRows : DataContainer) : KeplerTable :=
  let dc := t.dataContainer ++ newRows
  let allIndexes := List.range dc.length
  { t with
    dataContainer := dc
    allIndexes := allIndexes
    filteredIndex := allIndexes
    filteredIndexForDomain := allIndexes }

/-- Modelled from the spec: `SORT_ORDER` constant — the three sort modes. -/
def SORT_ORDER : List String := ["ASCENDING", "DESCENDING", "UNSORT"]

/-- `notNullorUndefined` from the common utils: the cell holds a value. -/
def notNullorUndefined (d : Option Int) : Bool := d.isSome

/-- JS numeric coercion as used by d3 comparators: `null` coerces to 0. -/
def jsNumber (v : Option Int) : Int := v.getD 0

/-- d3 `ascending` restricted to the modelled value universe. -/
def ascending (a b : Option Int) : Int :=
  if jsNumber a < jsNumber b then -1 else if jsNumber b < jsNumber a then 1 else 0

/-- d3 `descending` restricted to the modelled value universe. -/
def descending (a b : Option Int) : Int :=
  if jsNumber b < jsNumber a then -1 else if jsNumber a < jsNumber b then 1 else 0

/-- The comparator passed to `allIndexes.slice().sort` by
`sortDatasetByColumn`: null/undefined cells compare after present ones,
otherwise the chosen d3 comparator decides. -/
def sortComparator (dc : DataContainer) (fieldIndex : Nat)
    (sortFn : Option Int → Option Int → Int) (a b : Nat) : Int :=
  let value1 := valueAt dc a fieldIndex
  let value2 := valueAt dc b fieldIndex
  if !(notNullorUndefined value1) && notNullorUndefined value2 then 1
  else if notNullorUndefined value1 && !(notNullorUndefined value2) then -1
  else sortFn value1 value2

/-- `sortDatasetByColumn(dataset, column, mode)`.  JS `Array.sort` is a
stable comparison sort; it is modelled by `mergeSort` with the non-positive
comparator results as the `le` relation. -/
def sortDatasetByColumn (dataset : KeplerTable) (column : String)
    (mode : Option String) : KeplerTable :=
  match dataset.fields.findIdx? (fun f => f.name == column) with
  | none => dataset
  | some fieldIndex =>
    let sortBy :=
      if SORT_ORDER.contains (mode.getD "") then mode.getD "" else ("ASCENDING")
    if sortBy == "UNSORT" then
      { dataset with sortColumn := some [], sortOrder := none }
    else
      let sortFn := if sortBy == "ASCENDING" then ascending else descending
      let ord := dataset.allIndexes.mergeSort
        (fun a b =>
          decide (sortComparator dataset.dataContainer fieldIndex sortFn a b ≤ 0))
      { dataset with
        sortColumn := some [(column, sortBy)]
        sortOrder := some ord }

/-- `pinTableColumns(dataset, column)`: toggle membership of the column in
the pinned list via `copyTableAndUpdate`. -/
def pinTableColumns (dataset : KeplerTable) (column : String) : KeplerTable :=
  match dataset.getColumnField column with
  | none => dataset
  | some field =>
    let pinned : List String :=
      match dataset.pinnedColumns with
      | some pcs =>
        if pcs.contains field.name then pcs.filter (fun co => co != field.name)
        else pcs ++ [field.name]
      | none => [field.name]
    copyTableAndUpdate dataset (fun c => { c with pinnedColumns := some pinned })

/-- Modelled from the spec: the supported scale types of the `SCALE_TYPES`
constant (the cases of the source's `getColumnLayerDomain` switch). -/
def SCALE_TYPES : List String :=
  ["ordinal", "quantile", "quantize", "linear", "sqrt", "log", "point",
   "customOrdinal", "custom"]

/-- Modelled from the spec: ordinal domain — the distinct values of the
whole column in first-seen order. -/
def getOrdinalDomain (dc : DataContainer) (fieldIdx : Nat) : List Int :=
  ((List.range dc.length).filterMap (fun i => valueAt dc i fieldIdx)).foldl
    (fun acc v => if acc.contains v then acc else acc ++ [v]) []

/-- Modelled from the spec: linear domain — `[min, max]` of the values at
the given index subset, null cells excluded. -/
def getLinearDomain (indexes : List Nat) (dc : DataContainer)
    (fieldIdx : Nat) : List Int :=
  match indexes.filterMap (fun i => valueAt dc i fieldIdx) with
  | [] => []
  | v :: vs => [vs.foldl min v, vs.foldl max v]

/-- Modelled from the spec: log-scale domain variant — the value extent of
the index subset, null cells excluded. -/
def getLogDomain (indexes : List Nat) (dc : DataContainer)
    (fieldIdx : Nat) : List Int :=
  match indexes.filterMap (fun i => valueAt dc i fieldIdx) with
  | [] => []
  | v :: vs => [vs.foldl min v, vs.foldl max v]

/-- Modelled from the spec: quantile domain — the sorted values of the
index subset. -/
def getQuantileDomain (indexes : List Nat) (dc : DataContainer)
    (fieldIdx : Nat) : List Int :=
  (indexes.filterMap (fun i => valueAt dc i fieldIdx)).mergeSort
    (fun a b => decide (a ≤ b))

/-- `getColumnLayerDomain(field, scaleType)`: an unsupported scale type logs
an error and returns null (`none`); otherwise dispatch on the scale type,
the quantile/log/linear families operating over `filteredIndexForDomain`. -/
def KeplerTable.getColumnLayerDomain (t : KeplerTable) (field : Field)
    (scaleType : String) : Option (List Int) :=
  if !(SCALE_TYPES.contains scaleType) then none
  else if scaleType == "ordinal" || scaleType == "customOrdinal" ||
      scaleType == "point" then
    some (getOrdinalDomain t.dataContainer field.fieldIdx)
  else if scaleType == "quantile" then
    some (getQuantileDomain t.filteredIndexForDomain t.dataContainer field.fieldIdx)
  else if scaleType == "log" then
    some (getLogDomain t.filteredIndexForDomain t.dataContainer field.fieldIdx)
  else
    some (getLinearDomain t.filteredIndexForDomain t.dataContainer field.fieldIdx)

/-- Modelled from the spec: the keys of the `SCALE_FUNC` constant of the
aggregation source (the scale constructors available to `getScaleFunctor`). -/
def SCALE_FUNC : List String :=
  ["linear", "quantize", "quantile", "ordinal", "sqrt", "log", "point"]

/-- `getScaleFunctor(scaleType)` from the CPU-aggregator source: the scale
constructor for the requested type, falling back to quantize when the type
is missing or unsupported; the Bool records whether the unsupported-scale
warning was emitted. -/
def getScaleFunctor (scaleType : String) : String × Bool :=
  if SCALE_FUNC.contains scaleType then (scaleType, false)
  else (("quantize"), true)

/-- The Boolean membership test used by `pinTableColumns`
(`Array.isArray(pinnedColumns) && pinnedColumns.includes(name)`). -/
def pinnedContains (t : KeplerTable) (name : String) : Bool :=
  (t.pinnedColumns.getD []).contains name

/-- A concrete imported table used to witness the hypotheses of the
claim theorems: one numeric column `v` with values 3, null, 1, 5. -/
def exampleTable : KeplerTable :=
  KeplerTable.importData { id := "d1" } [{ name := "v" }]
    [[some 3], [none], [some 1], [some 5]]

/-- The imported descriptor of column `v` of `exampleTable`. -/
def exampleField : Field := { name := "v", fieldIdx := 0 }

/-- A CPU range filter on column `v` of `exampleTable`. -/
def exampleFilter : Filter :=
  { id := "f1", dataId := "d1", name := "v", lower := 2, upper := 5 }

/-- A GPU-offloaded range filter on column `v` of `exampleTable`. -/
def exampleGpuFilter : Filter :=
  { id := "f2", dataId := "d1", name := "v", gpu := true, lower := 2, upper := 5 }

/-- C2: `filterTable` with an empty filter list resets both index views to
exactly `allIndexes` and returns without performing the row scan. -/
theorem filterTable_empty_identity (t : KeplerTable) (layers : List Layer)
    (opt : FilterDatasetOpt) :
    (t.filterTable [] layers opt).1.filteredIndex = t.allIndexes ∧
    (t.filterTable [] layers opt).1.filteredIndexForDomain = t.allIndexes ∧
    (t.filterTable [] layers opt).2 = false := by
  simp [KeplerTable.filterTable]

/-- C10: `update(data)` resets both `filteredIndex` and
`filteredIndexForDomain` to the new `allIndexes`, which spans the merged
row count, while the filter-related state of the table is untouched. -/
theorem update_resets_index_views (t : KeplerTable) (newRows : DataContainer) :
    (t.update newRows).allIndexes =
      List.range (t.dataContainer.length + newRows.length) ∧
    (t.update newRows).filteredIndex = (t.update newRows).allIndexes ∧
    (t.update newRows).filteredIndexForDomain = (t.update newRows).allIndexes ∧
    (t.update newRows).filterRecord = t.filterRecord ∧
    (t.update newRows).filterRecordCPU = t.filterRecordCPU ∧
    (t.update newRows).changedFilters = t.changedFilters := by
  simp [KeplerTable.update]

/-- C5: `filterTableCPU` with no filters sets `filteredIdxCPU` to
`allIndexes`; with a non-empty filter list none of which is GPU-offloaded
it sets `filteredIdxCPU` to the current `filteredIndex`. -/
theorem filterTableCPU_no_gpu_mirrors (t : KeplerTable) (fs : List Filter)
    (ls : List Layer) :
    (fs = [] → (t.filterTableCPU fs ls).filteredIdxCPU = some t.allIndexes) ∧
    (fs ≠ [] → (∀ f ∈ fs, f.gpu = false) →
      (t.filterTableCPU fs ls).filteredIdxCPU = some t.filteredIndex) := by
  constructor
  · intro h
    subst h
    simp [KeplerTable.filterTableCPU]
  · intro hne hall
    have h1 : fs.isEmpty = false := by
      cases fs with
      | nil => exact absurd rfl hne
      | cons a l => rfl
    have h2 : fs.any (fun f => f.gpu) = false := by
      rw [List.any_eq_false]
      intro f hf
      simp [hall f hf]
    simp [KeplerTable.filterTableCPU, h1, h2]

theorem filterTableCPU_no_gpu_mirrors_witness :
    ((exampleTable.filterTableCPU [] []).filteredIdxCPU =
      some exampleTable.allIndexes) ∧
    ((exampleTable.filterTableCPU [exampleFilter] []).filteredIdxCPU =
      some exampleTable.filteredIndex) :=
  ⟨(filterTableCPU_no_gpu_mirrors exampleTable [] []).1 rfl,
    (filterTableCPU_no_gpu_mirrors exampleTable [exampleFilter] []).2
      (by simp) (by intro f hf; simp at hf; subst hf; rfl)⟩

/-- C4: with at least one GPU-offloaded filter, `filterTableCPU` leaves the
live `filteredIndex`, `filterRecord` and both of the original table's index
views untouched; the all-CPU re-filter runs on the shallow structural copy
(sharing the data container) and only `filteredIdxCPU` and
`filterRecordCPU` of the original are updated with its results. -/
theorem filterTableCPU_copy_isolation (t : KeplerTable) (fs : List Filter)
    (ls : List Layer) (h : ∃ f, f ∈ fs ∧ f.gpu = true) :
    (t.filterTableCPU fs ls).filteredIndex = t.filteredIndex ∧
    (t.filterTableCPU fs ls).filterRecord = t.filterRecord ∧
    (t.filterTableCPU fs ls).filteredIndexForDomain = t.filteredIndexForDomain ∧
    (t.filterTableCPU fs ls).dataContainer = t.dataContainer ∧
    (t.filterTableCPU fs ls).filteredIdxCPU =
      some ((KeplerTable.filterTable
        { copyTable t with
          filterRecord := t.filterRecordCPU
          filteredIndex := t.filteredIdxCPU.getD [] }
        fs ls { cpuOnly := true, ignoreDomain := true }).1.filteredIndex) ∧
    (t.filterTableCPU fs ls).filterRecordCPU =
      ((KeplerTable.filterTable
        { copyTable t with
          filterRecord := t.filterRecordCPU
          filteredIndex := t.filteredIdxCPU.getD [] }
        fs ls { cpuOnly := true, ignoreDomain := true }).1.filterRecord) := by
  obtain ⟨f, hf, hgpu⟩ := h
  have h1 : fs.isEmpty = false := by
    cases fs with
    | nil => cases hf
    | cons a l => rfl
  have h2 : fs.any (fun f => f.gpu) = true := List.any_eq_true.mpr ⟨f, hf, hgpu⟩
  simp [KeplerTable.filterTableCPU, h1, h2, copyTable]

theorem filterTableCPU_copy_isolation_witness :
    (exampleTable.filterTableCPU [exampleGpuFilter] []).filteredIndex =
      exampleTable.filteredIndex ∧
    (exampleTable.filterTableCPU [exampleGpuFilter] []).filterRecord =
      exampleTable.filterRecord :=
  ⟨(filterTableCPU_copy_isolation exampleTable [exampleGpuFilter] []
      ⟨exampleGpuFilter, by simp, rfl⟩).1,
    (filterTableCPU_copy_isolation exampleTable [exampleGpuFilter] []
      ⟨exampleGpuFilter, by simp, rfl⟩).2.1⟩

/-- C6 (counterexample): for the concrete table of values 3, null, 1, 5
and the unsupported scale type `"invalid"`, `getColumnLayerDomain` does not
fall back to the quantize scale: it returns null, while the quantize scale
would yield the linear domain `[1, 5]`. -/
theorem getColumnLayerDomain_no_quantize_fallback :
    exampleTable.getColumnLayerDomain exampleField ("invalid") = none ∧
    exampleTable.getColumnLayerDomain exampleField ("quantize") = some [1, 5] ∧
    exampleTable.getColumnLayerDomain exampleField ("invalid") ≠
      exampleTable.getColumnLayerDomain exampleField ("quantize") := by
  refine ⟨by decide, by decide, by decide⟩

/-- C6 (amended): an unsupported scale type makes `getScaleFunctor` (the
aggregation-layer scale lookup) log a warning and fall back to the quantize
scale, whereas `getColumnLayerDomain` logs an error and returns null. -/
theorem unsupported_scale_behavior (s : String) (t : KeplerTable) (f : Field) :
    (SCALE_FUNC.contains s = false → getScaleFunctor s = (("quantize"), true)) ∧
    (SCALE_TYPES.contains s = false → t.getColumnLayerDomain f s = none) := by
  constructor
  · intro h
    have h2 : s ∉ SCALE_FUNC := by simpa using h
    simp [getScaleFunctor, h2]
  · intro h
    have h2 : s ∉ SCALE_TYPES := by simpa using h
    simp [KeplerTable.getColumnLayerDomain, h2]

theorem unsupported_scale_behavior_witness :
    (getScaleFunctor ("invalid") = (("quantize"), true)) ∧
    (exampleTable.getColumnLayerDomain exampleField ("invalid") = none) :=
  ⟨(unsupported_scale_behavior ("invalid") exampleTable exampleField).1 (by decide),
    (unsupported_scale_behavior ("invalid") exampleTable exampleField).2 (by decide)⟩

/-- C7: `findPointFieldPairs` on `['one_lat','one_lng']` yields exactly the
pair named `one` with lat index 0 and lng index 1; on `['lat','lon']`
exactly the pair named `point`; on `['one_late','one_lng']` no pair, since
the suffix is not bounded by a word separator or a string boundary. -/
theorem findPointFieldPairs_examples :
    (findPointFieldPairs [{ name := ("one_lat") }, { name := ("one_lng") }] =
      [{ defaultName := ("one"), latFieldIdx := 0, latValue := ("one_lat"),
         lngFieldIdx := 1, lngValue := ("one_lng"), altitude := none,
         suffix := (("lat"), ("lng")) }]) ∧
    (findPointFieldPairs [{ name := ("lat") }, { name := ("lon") }] =
      [{ defaultName := ("point"), latFieldIdx := 0, latValue := ("lat"),
         lngFieldIdx := 1, lngValue := ("lon"), altitude := none,
         suffix := (("lat"), ("lon")) }]) ∧
    findPointFieldPairs [{ name := ("one_late") }, { name := ("one_lng") }] = [] := by
  refine ⟨by decide, by decide, by decide⟩

lemma filterTable_fst_allIndexes (t : KeplerTable) (fs : List Filter)
    (ls : List Layer) (opt : FilterDatasetOpt) :
    (t.filterTable fs ls opt).1.allIndexes = t.allIndexes := by
  unfold KeplerTable.filterTable
  dsimp only
  split
  · rfl
  · split <;> rfl

lemma filterTable_fst_id (t : KeplerTable) (fs : List Filter)
    (ls : List Layer) (opt : FilterDatasetOpt) :
    (t.filterTable fs ls opt).1.id = t.id := by
  unfold KeplerTable.filterTable
  dsimp only
  split
  · rfl
  · split <;> rfl

lemma filterTable_fst_filterRecord (t : KeplerTable) (fs : List Filter)
    (ls : List Layer) (opt : FilterDatasetOpt) :
    (t.filterTable fs ls opt).1.filterRecord =
      some (getFilterRecord t.id fs opt) := by
  unfold KeplerTable.filterTable
  dsimp only
  split
  · rfl
  · split <;> rfl

lemma filterTable_fst_filteredIndex_sublist (t : KeplerTable) (fs : List Filter)
    (ls : List Layer) (opt : FilterDatasetOpt)
    (h1 : t.allIndexes = List.range t.dataContainer.length)
    (h2 : t.filteredIndex.Sublist t.allIndexes) :
    (t.filterTable fs ls opt).1.filteredIndex.Sublist t.allIndexes := by
  unfold KeplerTable.filterTable
  dsimp only
  split
  · exact List.Sublist.refl _
  · split
    · dsimp only [filterDataByFilterTypes]
      split
      · rw [h1]
        exact List.filter_sublist _
      · exact h2
    · exact h2

lemma filterTable_fst_filteredIndexForDomain_sublist (t : KeplerTable)
    (fs : List Filter) (ls : List Layer) (opt : FilterDatasetOpt)
    (h1 : t.allIndexes = List.range t.dataContainer.length)
    (h2 : t.filteredIndexForDomain.Sublist t.allIndexes) :
    (t.filterTable fs ls opt).1.filteredIndexForDomain.Sublist t.allIndexes := by
  unfold KeplerTable.filterTable
  dsimp only
  split
  · exact List.Sublist.refl _
  · split
    · dsimp only [filterDataByFilterTypes]
      split
      · rw [h1]
        exact List.filter_sublist _
      · exact h2
    · exact h2

/-- C1: on a well-formed table, after `filterTable` with a non-empty filter
list both `filteredIndex` and `filteredIndexForDomain` are subsets of
`allIndexes`, strictly ascending, with no duplicates. -/
theorem filterTable_index_views_invariant (t : KeplerTable) (fs : List Filter)
    (ls : List Layer) (opt : FilterDatasetOpt) (hwf : WellFormedTable t)
    (_hne : fs ≠ []) :
    ((t.filterTable fs ls opt).1.filteredIndex ⊆
        (t.filterTable fs ls opt).1.allIndexes ∧
      List.Pairwise (· < ·) (t.filterTable fs ls opt).1.filteredIndex ∧
      (t.filterTable fs ls opt).1.filteredIndex.Nodup) ∧
    ((t.filterTable fs ls opt).1.filteredIndexForDomain ⊆
        (t.filterTable fs ls opt).1.allIndexes ∧
      List.Pairwise (· < ·) (t.filterTable fs ls opt).1.filteredIndexForDomain ∧
      (t.filterTable fs ls opt).1.filteredIndexForDomain.Nodup) := by
  obtain ⟨h1, h2, h3⟩ := hwf
  have hall := filterTable_fst_allIndexes t fs ls opt
  have hs1 := filterTable_fst_filteredIndex_sublist t fs ls opt h1 h2
  have hs2 := filterTable_fst_filteredIndexForDomain_sublist t fs ls opt h1 h3
  have hrange : List.Pairwise (· < ·) t.allIndexes := by
    rw [h1]
    exact List.pairwise_lt_range _
  have hp1 : List.Pairwise (· < ·) (t.filterTable fs ls opt).1.filteredIndex :=
    hrange.sublist hs1
  have hp2 : List.Pairwise (· < ·)
      (t.filterTable fs ls opt).1.filteredIndexForDomain :=
    hrange.sublist hs2
  refine ⟨⟨?_, hp1, hp1.imp Nat.ne_of_lt⟩, ⟨?_, hp2, hp2.imp Nat.ne_of_lt⟩⟩
  · rw [hall]
    exact hs1.subset
  · rw [hall]
    exact hs2.subset

theorem filterTable_index_views_invariant_witness :
    ((exampleTable.filterTable [exampleFilter] [] {}).1.filteredIndex ⊆
        (exampleTable.filterTable [exampleFilter] [] {}).1.allIndexes ∧
      List.Pairwise (· < ·)
        (exampleTable.filterTable [exampleFilter] [] {}).1.filteredIndex ∧
      (exampleTable.filterTable [exampleFilter] [] {}).1.filteredIndex.Nodup) ∧
    ((exampleTable.filterTable [exampleFilter] [] {}).1.filteredIndexForDomain ⊆
        (exampleTable.filterTable [exampleFilter] [] {}).1.allIndexes ∧
      List.Pairwise (· < ·)
        (exampleTable.filterTable [exampleFilter] [] {}).1.filteredIndexForDomain ∧
      (exampleTable.filterTable
        [exampleFilter] [] {}).1.filteredIndexForDomain.Nodup) :=
  filterTable_index_views_invariant exampleTable [exampleFilter] [] {}
    ⟨rfl, List.Sublist.refl _, List.Sublist.refl _⟩ (by simp)

lemma diffFilters_self (r : FilterRecord) :
    diffFilters r (some r) = { dynamicDomain := false, cpu := false, gpu := false } := by
  simp [diffFilters]

lemma filterTable_nil_views (t : KeplerTable) (ls : List Layer)
    (opt : FilterDatasetOpt) :
    (t.filterTable [] ls opt).1.filteredIndex = t.allIndexes ∧
    (t.filterTable [] ls opt).1.filteredIndexForDomain = t.allIndexes := by
  constructor <;> simp [KeplerTable.filterTable]

/-- A `filterTable` call on a table whose `filterRecord` already matches the
classification of the given filters performs no scan and keeps both index
views (for the empty list, provided the views already equal `allIndexes`). -/
lemma filterTable_stable (u : KeplerTable) (fs : List Filter) (ls : List Layer)
    (opt : FilterDatasetOpt)
    (hrec : u.filterRecord = some (getFilterRecord u.id fs opt))
    (hemp : fs = [] → u.filteredIndex = u.allIndexes ∧
      u.filteredIndexForDomain = u.allIndexes) :
    (u.filterTable fs ls opt).1.filteredIndex = u.filteredIndex ∧
    (u.filterTable fs ls opt).1.filteredIndexForDomain =
      u.filteredIndexForDomain ∧
    (u.filterTable fs ls opt).2 = false ∧
    (u.filterTable fs ls opt).1.changedFilters =
      some { dynamicDomain := false, cpu := false, gpu := false } := by
  have hch : diffFilters (getFilterRecord u.id fs opt) u.filterRecord =
      { dynamicDomain := false, cpu := false, gpu := false } := by
    rw [hrec]
    exact diffFilters_self _
  cases fs with
  | nil =>
    obtain ⟨he1, he2⟩ := hemp rfl
    refine ⟨?_, ?_, ?_, ?_⟩ <;> simp [KeplerTable.filterTable, hch, he1, he2]
  | cons a l =>
    refine ⟨?_, ?_, ?_, ?_⟩ <;> simp [KeplerTable.filterTable, hch]

/-- C3: a second `filterTable` call with the same filters, layers and
options yields the same `filteredIndex`, performs no row scan (no bucket of
`changedFilters` is truthy, so the scan flag stays false), and keeps the
previous `filteredIndex` and `filteredIndexForDomain` unchanged. -/
theorem filterTable_idempotent (t : KeplerTable) (fs : List Filter)
    (ls : List Layer) (opt : FilterDatasetOpt) :
    ((t.filterTable fs ls opt).1.filterTable fs ls opt).1.filteredIndex =
      (t.filterTable fs ls opt).1.filteredIndex ∧
    ((t.filterTable fs ls opt).1.filterTable fs ls opt).1.filteredIndexForDomain =
      (t.filterTable fs ls opt).1.filteredIndexForDomain ∧
    ((t.filterTable fs ls opt).1.filterTable fs ls opt).2 = false ∧
    ((t.filterTable fs ls opt).1.filterTable fs ls opt).1.changedFilters =
      some { dynamicDomain := false, cpu := false, gpu := false } := by
  apply filterTable_stable
  · rw [filterTable_fst_filterRecord, filterTable_fst_id]
  · intro h
    subst h
    rw [filterTable_fst_allIndexes]
    exact filterTable_nil_views t ls opt

/-- C9: `pinTableColumns` on a column that resolves to a field returns a
table that differs from the original only in `pinnedColumns`, whose
membership of the column name is toggled; on a column with no matching
field the table is returned unchanged. -/
theorem pinTableColumns_toggles (t : KeplerTable) (col : String) :
    (∀ f, t.getColumnField col = some f →
      (pinnedContains (pinTableColumns t col) col = !(pinnedContains t col) ∧
        pinTableColumns t col =
          { t with pinnedColumns := (pinTableColumns t col).pinnedColumns })) ∧
    (t.getColumnField col = none → pinTableColumns t col = t) := by
  constructor
  · intro f hf
    have hname : f.name = col := by
      have := List.find?_some hf
      simpa using this
    rw [pinTableColumns, hf]
    subst hname
    cases hpc : t.pinnedColumns with
    | none =>
      constructor
      · simp [pinnedContains, hpc, copyTableAndUpdate, copyTable]
      · simp [copyTableAndUpdate, copyTable]
    | some pcs =>
      by_cases hmem : pcs.contains f.name
      · refine ⟨?_, by simp [copyTableAndUpdate, copyTable, hmem]⟩
        have hm : f.name ∈ pcs := by simpa using hmem
        simp [pinnedContains, hpc, hm, copyTableAndUpdate, copyTable,
          List.mem_filter]
      · refine ⟨?_, by simp [copyTableAndUpdate, copyTable, hmem]⟩
        have hm : f.name ∉ pcs := by simpa using hmem
        simp [pinnedContains, hpc, hm, copyTableAndUpdate, copyTable]
  · intro hf
    rw [pinTableColumns, hf]

theorem pinTableColumns_toggles_witness :
    (pinnedContains (pinTableColumns exampleTable ("v")) ("v") =
      !(pinnedContains exampleTable ("v")) ∧
      pinTableColumns exampleTable ("v") =
        { exampleTable with
          pinnedColumns := (pinTableColumns exampleTable ("v")).pinnedColumns }) ∧
    pinTableColumns exampleTable ("nope") = exampleTable :=
  ⟨(pinTableColumns_toggles exampleTable ("v")).1
      { name := ("v"), fieldIdx := 0 } (by decide),
    (pinTableColumns_toggles exampleTable ("nope")).2 (by decide)⟩

/-- Null-last component of the comparator's implicit sort key. -/
def rankNull (v : Option Int) : Int := if v.isSome then 0 else 1

/-- Direction-adjusted value component of the comparator's sort key. -/
def rankVal (asc : Bool) (v : Option Int) : Int :=
  if asc then jsNumber v else -(jsNumber v)

lemma sortComparator_le_iff (dc : DataContainer) (fi : Nat) (asc : Bool)
    (a b : Nat) :
    sortComparator dc fi (if asc then ascending else descending) a b ≤ 0 ↔
      (rankNull (valueAt dc a fi) < rankNull (valueAt dc b fi) ∨
        (rankNull (valueAt dc a fi) = rankNull (valueAt dc b fi) ∧
          rankVal asc (valueAt dc a fi) ≤ rankVal asc (valueAt dc b fi))) := by
  cases hva : valueAt dc a fi <;> cases hvb : valueAt dc b fi <;> cases asc <;>
    simp [sortComparator, ascending, descending, notNullorUndefined, jsNumber,
      rankNull, rankVal, hva, hvb] <;>
    split_ifs <;> omega

lemma sortComparator_le_trans (dc : DataContainer) (fi : Nat) (asc : Bool) :
    ∀ a b c : Nat,
      decide (sortComparator dc fi (if asc then ascending else descending) a b ≤ 0) = true →
      decide (sortComparator dc fi (if asc then ascending else descending) b c ≤ 0) = true →
      decide (sortComparator dc fi (if asc then ascending else descending) a c ≤ 0) = true := by
  intro a b c hab hbc
  rw [decide_eq_true_iff, sortComparator_le_iff] at hab hbc ⊢
  omega

lemma sortComparator_le_total (dc : DataContainer) (fi : Nat) (asc : Bool) :
    ∀ a b : Nat,
      (decide (sortComparator dc fi (if asc then ascending else descending) a b ≤ 0) ||
        decide (sortComparator dc fi (if asc then ascending else descending) b a ≤ 0)) = true := by
  intro a b
  rw [Bool.or_eq_true, decide_eq_true_iff, decide_eq_true_iff,
    sortComparator_le_iff, sortComparator_le_iff]
  omega

lemma sortComparator_le_nullsLast (dc : DataContainer) (fi : Nat) (asc : Bool)
    (a b : Nat)
    (hab : decide (sortComparator dc fi (if asc then ascending else descending) a b ≤ 0) = true)
    (ha : valueAt dc a fi = none) : valueAt dc b fi = none := by
  rw [decide_eq_true_iff, sortComparator_le_iff] at hab
  cases hvb : valueAt dc b fi with
  | none => rfl
  | some x =>
    rw [ha, hvb] at hab
    simp [rankNull] at hab

/-- C8: `sortDatasetByColumn` on an existing column: `UNSORT` clears
`sortOrder` to null and `sortColumn` to the empty object; `ASCENDING` and
`DESCENDING` produce a permutation of `allIndexes` in which every row with
a null column value comes after all rows with values, and `filteredIndex`
is never touched. -/
theorem sortDatasetByColumn_modes (t : KeplerTable) (col : String) (fi : Nat)
    (hcol : t.fields.findIdx? (fun f => f.name == col) = some fi) :
    ((sortDatasetByColumn t col (some ("UNSORT"))).sortOrder = none ∧
      (sortDatasetByColumn t col (some ("UNSORT"))).sortColumn = some [] ∧
      (sortDatasetByColumn t col (some ("UNSORT"))).filteredIndex =
        t.filteredIndex) ∧
    (∀ m, (m = ("ASCENDING") ∨ m = ("DESCENDING")) →
      ∃ l, (sortDatasetByColumn t col (some m)).sortOrder = some l ∧
        l.Perm t.allIndexes ∧
        List.Pairwise (fun a b => valueAt t.dataContainer a fi = none →
          valueAt t.dataContainer b fi = none) l ∧
        (sortDatasetByColumn t col (some m)).filteredIndex = t.filteredIndex) := by
  constructor
  · refine ⟨?_, ?_, ?_⟩ <;> simp +decide [sortDatasetByColumn, hcol]
  · intro m hm
    rcases hm with rfl | rfl
    · refine ⟨(t.allIndexes.mergeSort
        (fun a b => decide (sortComparator t.dataContainer fi ascending a b ≤ 0))),
        ?_, List.mergeSort_perm _ _, ?_, ?_⟩
      · simp +decide [sortDatasetByColumn, hcol]
      · refine (List.sorted_mergeSort
          (sortComparator_le_trans t.dataContainer fi true)
          (sortComparator_le_total t.dataContainer fi true) t.allIndexes).imp ?_
        intro a b hab
        exact sortComparator_le_nullsLast t.dataContainer fi true a b hab
      · simp +decide [sortDatasetByColumn, hcol]
    · refine ⟨(t.allIndexes.mergeSort
        (fun a b => decide (sortComparator t.dataContainer fi descending a b ≤ 0))),
        ?_, List.mergeSort_perm _ _, ?_, ?_⟩
      · simp +decide [sortDatasetByColumn, hcol]
      · refine (List.sorted_mergeSort
          (sortComparator_le_trans t.dataContainer fi false)
          (sortComparator_le_total t.dataContainer fi false) t.allIndexes).imp ?_
        intro a b hab
        exact sortComparator_le_nullsLast t.dataContainer fi false a b hab
      · simp +decide [sortDatasetByColumn, hcol]

theorem sortDatasetByColumn_modes_witness :
    ((sortDatasetByColumn exampleTable ("v") (some ("UNSORT"))).sortOrder = none ∧
      (sortDatasetByColumn exampleTable ("v") (some ("UNSORT"))).sortColumn =
        some [] ∧
      (sortDatasetByColumn exampleTable ("v") (some ("UNSORT"))).filteredIndex =
        exampleTable.filteredIndex) ∧
    (∀ m, (m = ("ASCENDING") ∨ m = ("DESCENDING")) →
      ∃ l, (sortDatasetByColumn exampleTable ("v") (some m)).sortOrder = some l ∧
        l.Perm exampleTable.allIndexes ∧
        List.Pairwise (fun a b => valueAt exampleTable.dataContainer a 0 = none →
          valueAt exampleTable.dataContainer b 0 = none) l ∧
        (sortDatasetByColumn exampleTable ("v") (some m)).filteredIndex =
          exampleTable.filteredIndex) :=
  sortDatasetByColumn_modes exampleTable ("v") 0 (by decide)

/-- `importData` establishes the index-view invariant that
`filterTable` preserves. -/
lemma importData_wellFormed (t : KeplerTable) (dfs : List Field)
    (rows : DataContainer) : WellFormedTable (t.importData dfs rows) :=
  ⟨rfl, List.Sublist.refl _, List.Sublist.refl _⟩

end Kepler
